import Mathlib

/-!
Verification of the clawdbot-channel-dingtalk channel (src/channel.ts).

The development shallowly embeds the stateful parts of `channel.ts`:
the module-global access-token cache (`accessToken`, `accessTokenExpiry`),
the card registries (`cardInstances`, `cardUpdateTimestamps`,
`cardUpdateTimeouts`), and the operations `getAccessToken`,
`updateInteractiveCard`, `updateInteractiveCardThrottled` and
`cleanupCardCache`.  JS `Map`s are embedded as association lists,
timers as explicit records carrying their fire time, and `Date.now()`
as an explicit `now : Int` argument.  Network outcomes (HTTP results)
are injected as parameters.
-/

namespace DingTalk

/-- Association-list lookup, mirroring `Map.get`. -/
def lookupA {κ β : Type} [DecidableEq κ] (k : κ) : List (κ × β) → Option β
  | [] => none
  | (k', v) :: t => if k' = k then some v else lookupA k t

/-- Association-list insert-or-replace, mirroring `Map.set`. -/
def setA {κ β : Type} [DecidableEq κ] (k : κ) (v : β) : List (κ × β) → List (κ × β)
  | [] => [(k, v)]
  | (k', v') :: t => if k' = k then (k, v) :: t else (k', v') :: setA k v t

/-- Association-list delete, mirroring `Map.delete`. -/
def removeA {κ β : Type} [DecidableEq κ] (k : κ) (l : List (κ × β)) : List (κ × β) :=
  l.filter (fun p => decide (p.1 ≠ k))

theorem lookupA_setA_self {κ β : Type} [DecidableEq κ] (k : κ) (v : β)
    (l : List (κ × β)) : lookupA k (setA k v l) = some v := by
  induction l with
  | nil => simp [setA, lookupA]
  | cons p t ih =>
    obtain ⟨k', v'⟩ := p
    by_cases h : k' = k
    · simp [setA, lookupA, h]
    · simp [setA, lookupA, h, ih]

theorem lookupA_setA_ne {κ β : Type} [DecidableEq κ] {k k' : κ} (v : β)
    (l : List (κ × β)) (h : k' ≠ k) :
    lookupA k' (setA k v l) = lookupA k' l := by
  have hkk : ¬ k = k' := fun hh => h hh.symm
  induction l with
  | nil => simp [setA, lookupA, hkk]
  | cons p t ih =>
    obtain ⟨k₀, v₀⟩ := p
    by_cases h0 : k₀ = k
    · subst h0
      simp [setA, lookupA, hkk]
    · simp only [setA, if_neg h0, lookupA, ih]

theorem lookupA_removeA_self {κ β : Type} [DecidableEq κ] (k : κ)
    (l : List (κ × β)) : lookupA k (removeA k l) = none := by
  induction l with
  | nil => rfl
  | cons p t ih =>
    obtain ⟨k', v'⟩ := p
    by_cases h : k' = k
    · subst h
      simpa [removeA] using ih
    · simpa [removeA, lookupA, h] using ih

theorem lookupA_removeA_ne {κ β : Type} [DecidableEq κ] {k k' : κ}
    (l : List (κ × β)) (h : k' ≠ k) :
    lookupA k' (removeA k l) = lookupA k' l := by
  induction l with
  | nil => rfl
  | cons p t ih =>
    obtain ⟨k₀, v₀⟩ := p
    by_cases h0 : k₀ = k
    · rw [h0]
      have hne : ¬ k = k' := fun hh => h hh.symm
      simpa [removeA, lookupA, hne] using ih
    · by_cases h1 : k₀ = k'
      · simp [removeA, lookupA, h0, h1, h]
      · simpa [removeA, lookupA, h0, h1] using ih

/-! ## The access-token cache (channel.ts lines 43-45, 170-192) -/

/-- The configuration fields `getAccessToken` reads (`DingTalkConfig`). -/
structure DingTalkConfig where
  clientId : String
  clientSecret : String
deriving DecidableEq

/-- The OAuth endpoint's successful response body (`TokenInfo`). -/
structure TokenInfo where
  accessToken : String
  expireIn : Int
deriving DecidableEq

/-- The module-global token cache: `let accessToken: string | null = null;
let accessTokenExpiry = 0;` (channel.ts lines 44-45). -/
structure TokenCache where
  accessToken : Option String
  accessTokenExpiry : Int
deriving DecidableEq

/-- `getAccessToken` (channel.ts lines 171-192), with the network call
(`axios.post` to the oauth2/accessToken endpoint, wrapped in
`retryWithBackoff`) injected as a function of the config; the injected
function models the successful outcome of the fetch.  Returns the token
handed to the caller, the updated global cache, and whether a fetch was
performed.  Note the code compares `accessTokenExpiry > now + 60000` and,
on a miss, stores `accessTokenExpiry = now + expireIn * 1000` with `now`
captured at call start. -/
def getAccessToken (config : DingTalkConfig) (cache : TokenCache) (now : Int)
    (fetch : DingTalkConfig → TokenInfo) : String × TokenCache × Bool :=
  match cache.accessToken with
  | some tok =>
    if now + 60000 < cache.accessTokenExpiry then
      (tok, cache, false)
    else
      let info := fetch config
      (info.accessToken,
       { accessToken := some info.accessToken,
         accessTokenExpiry := now + info.expireIn * 1000 }, true)
  | none =>
    let info := fetch config
    (info.accessToken,
     { accessToken := some info.accessToken,
       accessTokenExpiry := now + info.expireIn * 1000 }, true)

theorem getAccessToken_hit {config : DingTalkConfig} {cache : TokenCache}
    {now : Int} {fetch : DingTalkConfig → TokenInfo} {tok : String}
    (htok : cache.accessToken = some tok)
    (hvalid : now + 60000 < cache.accessTokenExpiry) :
    getAccessToken config cache now fetch = (tok, cache, false) := by
  unfold getAccessToken
  rw [htok]
  simp [hvalid]

theorem getAccessToken_miss {config : DingTalkConfig} {cache : TokenCache}
    {now : Int} {fetch : DingTalkConfig → TokenInfo}
    (h : cache.accessToken = none ∨ cache.accessTokenExpiry ≤ now + 60000) :
    getAccessToken config cache now fetch =
      ((fetch config).accessToken,
       { accessToken := some (fetch config).accessToken,
         accessTokenExpiry := now + (fetch config).expireIn * 1000 }, true) := by
  unfold getAccessToken
  cases hc : cache.accessToken with
  | none => simp
  | some tok =>
    rcases h with h | h
    · rw [hc] at h
      exact absurd h (by simp)
    · simp [if_neg (not_lt.mpr h)]

/-- C3 (amended): a `getAccessToken` call with a cached token whose expiry
is strictly beyond `now + 60000` returns the cached token with no fetch;
otherwise a fetch is performed and the fetched token is stored with
expiry `now + expireIn * 1000` and returned.  A token returned from the
cached path is always valid more than the 60 s safety margin past the
moment of return, but a freshly fetched token is valid at least the
margin past return precisely when `60000 < expireIn * 1000` — the code
does not enforce the margin on the fetch path. -/
theorem C3_cache_behavior (config : DingTalkConfig) (cache : TokenCache)
    (now : Int) (fetch : DingTalkConfig → TokenInfo) :
    (∀ tok, cache.accessToken = some tok → now + 60000 < cache.accessTokenExpiry →
      getAccessToken config cache now fetch = (tok, cache, false)) ∧
    ((cache.accessToken = none ∨ cache.accessTokenExpiry ≤ now + 60000) →
      getAccessToken config cache now fetch =
        ((fetch config).accessToken,
         { accessToken := some (fetch config).accessToken,
           accessTokenExpiry := now + (fetch config).expireIn * 1000 }, true)) ∧
    (∀ tok, cache.accessToken = some tok → now + 60000 < cache.accessTokenExpiry →
      now + 60000 < (getAccessToken config cache now fetch).2.1.accessTokenExpiry) ∧
    ((cache.accessToken = none ∨ cache.accessTokenExpiry ≤ now + 60000) →
      (now + 60000 ≤ (getAccessToken config cache now fetch).2.1.accessTokenExpiry ↔
       60000 ≤ (fetch config).expireIn * 1000)) := by
  refine ⟨?_, getAccessToken_miss, ?_, ?_⟩
  · intro tok htok hvalid
    exact getAccessToken_hit htok hvalid
  · intro tok htok hvalid
    rw [getAccessToken_hit htok hvalid]
    exact hvalid
  · intro h
    have hexp : (getAccessToken config cache now fetch).2.1.accessTokenExpiry
        = now + (fetch config).expireIn * 1000 := by
      rw [getAccessToken_miss h]
    rw [hexp]
    omega

/-- C3 witness: concrete instantiation of `C3_cache_behavior`. -/
theorem C3_cache_behavior_witness :
    getAccessToken ⟨"app", "secret"⟩ ⟨some "cached", 2000000⟩ 1000000
        (fun _ => ⟨"fresh", 7200⟩) = ("cached", ⟨some "cached", 2000000⟩, false) := by
  have h := (C3_cache_behavior ⟨"app", "secret"⟩ ⟨some "cached", 2000000⟩ 1000000
    (fun _ => ⟨"fresh", 7200⟩)).1 "cached" (by decide) (by decide)
  exact h

/-- C3 counterexample: the claim that every credential returned to a caller
is valid for at least the 60 s safety margin past the moment of return is
false — with an empty cache and a fetch whose `expireIn` is 30 seconds,
the fetched token is returned although its stored expiry (`now + 30000`)
is below `now + 60000`. -/
theorem C3_counterexample :
    (getAccessToken ⟨"app", "secret"⟩ ⟨none, 0⟩ 1000000
        (fun _ => ⟨"shortTok", 30⟩)).1 = "shortTok" ∧
    (getAccessToken ⟨"app", "secret"⟩ ⟨none, 0⟩ 1000000
        (fun _ => ⟨"shortTok", 30⟩)).2.1.accessTokenExpiry = 1030000 ∧
    ¬ (1000000 + 60000 ≤
        (getAccessToken ⟨"app", "secret"⟩ ⟨none, 0⟩ 1000000
          (fun _ => ⟨"shortTok", 30⟩)).2.1.accessTokenExpiry) := by
  refine ⟨rfl, rfl, by decide⟩

/-- C6 (amended): the token cache is a single module-global slot shared by
every config: whenever a valid token is cached, `getAccessToken` returns
it unchanged for any two configs — the result does not depend on the
config at all, so a call for one application identity is satisfied by a
credential fetched for another. -/
theorem C6_global_cache (cfgA cfgB : DingTalkConfig) (cache : TokenCache)
    (now : Int) (fetch : DingTalkConfig → TokenInfo) (tok : String)
    (htok : cache.accessToken = some tok)
    (hvalid : now + 60000 < cache.accessTokenExpiry) :
    getAccessToken cfgA cache now fetch = (tok, cache, false) ∧
    getAccessToken cfgB cache now fetch = (tok, cache, false) := by
  exact ⟨getAccessToken_hit htok hvalid, getAccessToken_hit htok hvalid⟩

/-- C6 witness: concrete instantiation of `C6_global_cache`. -/
theorem C6_global_cache_witness :
    getAccessToken ⟨"A", "sa"⟩ ⟨some "t0", 9000000⟩ 1000000
        (fun cfg => ⟨"tok_" ++ cfg.clientId, 7200⟩) = ("t0", ⟨some "t0", 9000000⟩, false) ∧
    getAccessToken ⟨"B", "sb"⟩ ⟨some "t0", 9000000⟩ 1000000
        (fun cfg => ⟨"tok_" ++ cfg.clientId, 7200⟩) = ("t0", ⟨some "t0", 9000000⟩, false) :=
  C6_global_cache ⟨"A", "sa"⟩ ⟨"B", "sb"⟩ ⟨some "t0", 9000000⟩ 1000000
    (fun cfg => ⟨"tok_" ++ cfg.clientId, 7200⟩) "t0" rfl (by decide)

/-- C6 counterexample: the claim that a `getAccessToken` call for identity B
is never satisfied by a credential fetched for identity A is false — after
a call for config A (clientId "A") populates the global cache with
"tok_A", a call for config B (clientId "B") one second later returns
"tok_A" without fetching. -/
theorem C6_counterexample :
    (getAccessToken ⟨"A", "sa"⟩ ⟨none, 0⟩ 1000000
        (fun cfg => ⟨"tok_" ++ cfg.clientId, 7200⟩)).1 = "tok_A" ∧
    (getAccessToken ⟨"B", "sb"⟩
        (getAccessToken ⟨"A", "sa"⟩ ⟨none, 0⟩ 1000000
          (fun cfg => ⟨"tok_" ++ cfg.clientId, 7200⟩)).2.1 1001000
        (fun cfg => ⟨"tok_" ++ cfg.clientId, 7200⟩)).1 = "tok_A" ∧
    (getAccessToken ⟨"B", "sb"⟩
        (getAccessToken ⟨"A", "sa"⟩ ⟨none, 0⟩ 1000000
          (fun cfg => ⟨"tok_" ++ cfg.clientId, 7200⟩)).2.1 1001000
        (fun cfg => ⟨"tok_" ++ cfg.clientId, 7200⟩)).2.2 = false := by
  refine ⟨rfl, rfl, rfl⟩

/-! ## Interleaving model of concurrent getAccessToken calls (C2)

`getAccessToken` is `async`: between its synchronous cache check
(lines 172-175) and the completion of its `axios.post` fetch
(lines 177-189) other calls may run.  Each call is modelled as two
atomic phases; the code stores no in-flight promise, so nothing links
one call's fetch to another's. -/

/-- Phase of one in-flight `getAccessToken` call: `started` = the call's
cache check has not yet run; `fetching startedAt` = the check saw no valid
token and the call's own fetch is in flight (`startedAt` is the `now`
captured at call start, used for the stored expiry); `done tok` = the
call has returned `tok`. -/
inductive CallPhase
  | started
  | fetching (startedAt : Int)
  | done (tok : String)
deriving DecidableEq

/-- Shared state for N interleaved `getAccessToken` calls: the
module-global cache, each call's phase, and how many fetches
(`axios.post` requests) have been started. -/
structure ConcState where
  cache : TokenCache
  calls : List (Nat × CallPhase)
  fetchCount : Nat
deriving DecidableEq

/-- The synchronous cache check of `getAccessToken` (lines 172-175): with
a valid cached token the call returns it at once; otherwise the call
starts its own fetch — the code has no in-flight-refresh dedup. -/
def concCheck (s : ConcState) (i : Nat) (now : Int) : ConcState :=
  match lookupA i s.calls with
  | some .started =>
    match s.cache.accessToken with
    | some tok =>
      if now + 60000 < s.cache.accessTokenExpiry then
        { s with calls := setA i (.done tok) s.calls }
      else
        { s with calls := setA i (.fetching now) s.calls,
                 fetchCount := s.fetchCount + 1 }
    | none =>
      { s with calls := setA i (.fetching now) s.calls,
               fetchCount := s.fetchCount + 1 }
  | _ => s

/-- Completion of call `i`'s fetch (lines 179-186): stores the fetched
token in the global cache with expiry `startedAt + expireIn * 1000` and
resolves the call with that token. -/
def concFinish (s : ConcState) (i : Nat) (info : TokenInfo) : ConcState :=
  match lookupA i s.calls with
  | some (.fetching startedAt) =>
    { s with
      cache := { accessToken := some info.accessToken,
                 accessTokenExpiry := startedAt + info.expireIn * 1000 },
      calls := setA i (.done info.accessToken) s.calls }
  | _ => s

/-- One scheduling action in the interleaving. -/
inductive ConcAction
  | check (i : Nat) (now : Int)
  | finishFetch (i : Nat) (info : TokenInfo)
deriving DecidableEq

def concStep (s : ConcState) : ConcAction → ConcState
  | .check i now => concCheck s i now
  | .finishFetch i info => concFinish s i info

def concRun (s : ConcState) (acts : List ConcAction) : ConcState :=
  acts.foldl concStep s

theorem concCheck_invalid {s : ConcState} {i : Nat} {now : Int}
    (hst : lookupA i s.calls = some .started)
    (hinv : s.cache.accessToken = none ∨ s.cache.accessTokenExpiry ≤ now + 60000) :
    concCheck s i now =
      { s with calls := setA i (.fetching now) s.calls,
               fetchCount := s.fetchCount + 1 } := by
  unfold concCheck
  rw [hst]
  rcases hinv with h | h
  · rw [h]
  · cases hc : s.cache.accessToken with
    | none => rfl
    | some tok => simp [if_neg (not_lt.mpr h)]

/-- C2 (amended): the code performs no request coalescing.  Every
`getAccessToken` call whose cache check observes no valid cached token
starts its own fetch: if all N checks run before any fetch completes
(the concurrent-burst schedule), exactly N fetches are started, not one;
the cache is still untouched after the checks.  Only a call whose check
runs after some fetch has completed (and within the stored validity)
is served from the cache without a fetch. -/
theorem C2_no_single_flight (ids : List Nat) (s : ConcState) (now : Int)
    (hnd : ids.Nodup)
    (hst : ∀ i ∈ ids, lookupA i s.calls = some CallPhase.started)
    (hinv : s.cache.accessToken = none ∨ s.cache.accessTokenExpiry ≤ now + 60000) :
    ((concRun s (ids.map (fun i => ConcAction.check i now))).fetchCount
        = s.fetchCount + ids.length ∧
      (concRun s (ids.map (fun i => ConcAction.check i now))).cache = s.cache) ∧
    (∀ (s' : ConcState) (j : Nat) (tok : String),
      lookupA j s'.calls = some CallPhase.started →
      s'.cache.accessToken = some tok →
      now + 60000 < s'.cache.accessTokenExpiry →
      concCheck s' j now = { s' with calls := setA j (.done tok) s'.calls }) := by
  constructor
  · induction ids generalizing s with
    | nil => exact ⟨by simp [concRun], rfl⟩
    | cons i t ih =>
      have hnd' := List.nodup_cons.mp hnd
      have hcalls : ∀ j ∈ t,
          lookupA j (setA i (CallPhase.fetching now) s.calls) = some CallPhase.started := by
        intro j hj
        have hji : j ≠ i := fun hh => hnd'.1 (hh ▸ hj)
        rw [lookupA_setA_ne _ _ hji]
        exact hst j (List.mem_cons_of_mem _ hj)
      have hrw := concCheck_invalid (hst i (List.mem_cons_self i t)) hinv
      have hih := ih { s with calls := setA i (.fetching now) s.calls,
                              fetchCount := s.fetchCount + 1 } hnd'.2 hcalls hinv
      rw [List.map_cons]
      rw [show concRun s (ConcAction.check i now :: t.map (fun j => ConcAction.check j now))
          = concRun (concCheck s i now) (t.map (fun j => ConcAction.check j now)) from rfl]
      rw [hrw]
      refine ⟨?_, hih.2⟩
      rw [hih.1]
      simp [List.length_cons]
      omega
  · intro s' j tok hj htok hvalid
    unfold concCheck
    rw [hj, htok]
    simp [hvalid]

/-- C2 witness: concrete instantiation of `C2_no_single_flight` with two
concurrent calls and an empty cache. -/
theorem C2_no_single_flight_witness :
    ((concRun ⟨⟨none, 0⟩, [(0, CallPhase.started), (1, CallPhase.started)], 0⟩
        ([0, 1].map (fun i => ConcAction.check i 1000))).fetchCount
        = 0 + [0, 1].length ∧
      (concRun ⟨⟨none, 0⟩, [(0, CallPhase.started), (1, CallPhase.started)], 0⟩
        ([0, 1].map (fun i => ConcAction.check i 1000))).cache = ⟨none, 0⟩) ∧
    (∀ (s' : ConcState) (j : Nat) (tok : String),
      lookupA j s'.calls = some CallPhase.started →
      s'.cache.accessToken = some tok →
      1000 + 60000 < s'.cache.accessTokenExpiry →
      concCheck s' j 1000 = { s' with calls := setA j (.done tok) s'.calls }) :=
  C2_no_single_flight [0, 1] ⟨⟨none, 0⟩, [(0, CallPhase.started), (1, CallPhase.started)], 0⟩
    1000 (by decide) (by decide) (Or.inl rfl)

/-- C2 counterexample: the claim that N concurrent `getAccessToken` calls
with no valid cached credential perform exactly one fetch and converge on
its result is false — two calls whose checks both run before either
fetch completes perform two fetches and return two different tokens. -/
theorem C2_counterexample :
    (concRun ⟨⟨none, 0⟩, [(0, CallPhase.started), (1, CallPhase.started)], 0⟩
        [ConcAction.check 0 1000, ConcAction.check 1 1001,
         ConcAction.finishFetch 0 ⟨"t0", 7200⟩,
         ConcAction.finishFetch 1 ⟨"t1", 7200⟩]).fetchCount = 2 ∧
    lookupA 0 (concRun ⟨⟨none, 0⟩, [(0, CallPhase.started), (1, CallPhase.started)], 0⟩
        [ConcAction.check 0 1000, ConcAction.check 1 1001,
         ConcAction.finishFetch 0 ⟨"t0", 7200⟩,
         ConcAction.finishFetch 1 ⟨"t1", 7200⟩]).calls = some (CallPhase.done "t0") ∧
    lookupA 1 (concRun ⟨⟨none, 0⟩, [(0, CallPhase.started), (1, CallPhase.started)], 0⟩
        [ConcAction.check 0 1000, ConcAction.check 1 1001,
         ConcAction.finishFetch 0 ⟨"t0", 7200⟩,
         ConcAction.finishFetch 1 ⟨"t1", 7200⟩]).calls = some (CallPhase.done "t1") := by
  refine ⟨rfl, rfl, rfl⟩

/-! ## Card registry, throttling and sweep (channel.ts lines 47-131, 462-594)

The module-global card state is `cardInstances`, `cardUpdateTimestamps`
and `cardUpdateTimeouts`.  `setTimeout` handles are embedded as `Timer`
records; `Date.now()` is the explicit `now` argument of each operation;
the HTTP outcome of a card update (after `retryWithBackoff`) is injected
as an `UpdateOutcome`.  A run is a time-ordered list of events: throttled
calls, timer firings and sweep runs. -/

/-- `CardInstance` (types.ts), as stored in `cardInstances`. -/
structure CardInstance where
  cardBizId : String
  conversationId : String
  createdAt : Int
  lastUpdated : Int
deriving DecidableEq

/-- Outcome of the underlying HTTP card-update call: success, or failure
with the final HTTP status code. -/
inductive UpdateOutcome
  | success
  | failure (status : Nat)
deriving DecidableEq

/-- `updateInteractiveCard` (channel.ts lines 463-537), restricted to its
effect on the `cardInstances` registry and its result: on success the
cached instance's `lastUpdated` is set to `Date.now()` (if cached); on
failure with status 404, 410 or 403 the instance is deleted from the
cache and the error re-thrown; on any other failing status the cache is
untouched and the error is still re-thrown. -/
def updateInteractiveCard (instances : List (String × CardInstance))
    (cardBizId : String) (now : Int) (outcome : UpdateOutcome) :
    List (String × CardInstance) × Except Nat Unit :=
  match outcome with
  | .success =>
    match lookupA cardBizId instances with
    | some inst => (setA cardBizId { inst with lastUpdated := now } instances, .ok ())
    | none => (instances, .ok ())
  | .failure status =>
    if status = 404 ∨ status = 410 ∨ status = 403 then
      (removeA cardBizId instances, .error status)
    else
      (instances, .error status)

/-- Kind of a `setTimeout` handle stored in `cardUpdateTimeouts`: the
60 s inactivity-finalization timeout, or a delayed throttled dispatch
armed by the call `callId`, whose closure captured that call's `text`. -/
inductive TimerKind
  | inactivity
  | scheduled (callId : Nat) (text : String)
deriving DecidableEq

/-- A `setTimeout` handle: due time, callback kind, and whether it is
still armed (`clearTimeout` and firing both disarm the handle; the map
entry can outlive it). -/
structure Timer where
  fireAt : Int
  kind : TimerKind
  armed : Bool
deriving DecidableEq

/-- One dispatch of the underlying card-update HTTP call, as logged. -/
structure Dispatch where
  cardBizId : String
  text : String
  time : Int
  outcome : UpdateOutcome
deriving DecidableEq

/-- Settlement state of one `updateInteractiveCardThrottled` promise. -/
inductive PromiseStatus
  | pending
  | resolved
  | rejected
deriving DecidableEq

/-- The module-global card state (channel.ts lines 48-56), together with
two observation logs: the dispatches performed so far (in order) and the
promise status of each throttled call, keyed by call id. -/
structure ChannelState where
  cardInstances : List (String × CardInstance)
  cardUpdateTimestamps : List (String × Int)
  cardUpdateTimeouts : List (String × Timer)
  promises : List (Nat × PromiseStatus)
  dispatches : List Dispatch
deriving DecidableEq

def CARD_UPDATE_MIN_INTERVAL : Int := 500

def CARD_UPDATE_TIMEOUT : Int := 60000

def CARD_CACHE_TTL : Int := 60 * 60 * 1000

def emptyChannelState : ChannelState := ⟨[], [], [], [], []⟩

/-- `clearTimeout(existingTimeout)` on the handle stored for a card
(channel.ts lines 551-554): the handle is disarmed; the map entry stays
until overwritten or deleted. -/
def clearTimer (timeouts : List (String × Timer)) (cardBizId : String) :
    List (String × Timer) :=
  match lookupA cardBizId timeouts with
  | some t => setA cardBizId { t with armed := false } timeouts
  | none => timeouts

/-- `updateInteractiveCardThrottled` (channel.ts lines 540-594) as one
atomic step at time `now`.  `callId` identifies the promise returned to
the caller; `outcome` is the HTTP outcome of the dispatch if one happens
now.  The code reads `lastUpdate` (default 0), clears any existing
timeout handle for the card, then either dispatches immediately
(re-arming the inactivity timeout on success only — on error the `await`
throws first) or arms a delayed dispatch for the remaining
`minInterval - elapsed` and leaves the promise pending. -/
def updateInteractiveCardThrottled (s : ChannelState) (callId : Nat)
    (cardBizId : String) (text : String) (now : Int) (outcome : UpdateOutcome) :
    ChannelState :=
  let lastUpdate := (lookupA cardBizId s.cardUpdateTimestamps).getD 0
  let timeSinceLastUpdate := now - lastUpdate
  let timeouts0 := clearTimer s.cardUpdateTimeouts cardBizId
  if CARD_UPDATE_MIN_INTERVAL ≤ timeSinceLastUpdate then
    let timestamps := setA cardBizId now s.cardUpdateTimestamps
    match updateInteractiveCard s.cardInstances cardBizId now outcome with
    | (instances, .ok _) =>
      { cardInstances := instances,
        cardUpdateTimestamps := timestamps,
        cardUpdateTimeouts :=
          setA cardBizId ⟨now + CARD_UPDATE_TIMEOUT, .inactivity, true⟩ timeouts0,
        promises := setA callId .resolved s.promises,
        dispatches := s.dispatches ++ [⟨cardBizId, text, now, outcome⟩] }
    | (instances, .error _) =>
      { cardInstances := instances,
        cardUpdateTimestamps := timestamps,
        cardUpdateTimeouts := timeouts0,
        promises := setA callId .rejected s.promises,
        dispatches := s.dispatches ++ [⟨cardBizId, text, now, outcome⟩] }
  else
    let delay := CARD_UPDATE_MIN_INTERVAL - timeSinceLastUpdate
    { s with
      cardUpdateTimeouts :=
        setA cardBizId ⟨now + delay, .scheduled callId text, true⟩ timeouts0,
      promises := setA callId .pending s.promises }

/-- Firing of the `setTimeout` handle stored for `cardBizId` at its due
time (a no-op unless an armed handle for the card is due at `now`).  An
inactivity handle deletes its own map entry ("finalized after inactivity
timeout", lines 562-565 and 579-582); a scheduled-dispatch handle runs
the delayed body (lines 573-589): stamp `Date.now()`, dispatch the text
captured by the arming call, arm the inactivity timeout on success, and
resolve or reject that call's promise. -/
def timerFire (s : ChannelState) (cardBizId : String) (now : Int)
    (outcome : UpdateOutcome) : ChannelState :=
  match lookupA cardBizId s.cardUpdateTimeouts with
  | some t =>
    if t.armed = true ∧ t.fireAt = now then
      match t.kind with
      | .inactivity =>
        { s with cardUpdateTimeouts := removeA cardBizId s.cardUpdateTimeouts }
      | .scheduled callId text =>
        let timestamps := setA cardBizId now s.cardUpdateTimestamps
        let timeouts1 := setA cardBizId { t with armed := false } s.cardUpdateTimeouts
        match updateInteractiveCard s.cardInstances cardBizId now outcome with
        | (instances, .ok _) =>
          { cardInstances := instances,
            cardUpdateTimestamps := timestamps,
            cardUpdateTimeouts :=
              setA cardBizId ⟨now + CARD_UPDATE_TIMEOUT, .inactivity, true⟩ timeouts1,
            promises := setA callId .resolved s.promises,
            dispatches := s.dispatches ++ [⟨cardBizId, text, now, outcome⟩] }
        | (instances, .error _) =>
          { cardInstances := instances,
            cardUpdateTimestamps := timestamps,
            cardUpdateTimeouts := timeouts1,
            promises := setA callId .rejected s.promises,
            dispatches := s.dispatches ++ [⟨cardBizId, text, now, outcome⟩] }
    else s
  | none => s

/-- Whether the sweep considers `cardBizId` expired: it has a registry
entry whose age since `lastUpdated` strictly exceeds `CARD_CACHE_TTL`
(the loop in channel.ts lines 104-113 only visits registry entries). -/
def cardExpired (s : ChannelState) (now : Int) (cardBizId : String) : Bool :=
  match lookupA cardBizId s.cardInstances with
  | some inst => decide (CARD_CACHE_TTL < now - inst.lastUpdated)
  | none => false

/-- `cleanupCardCache` (channel.ts lines 102-115), run by the 30-minute
`setInterval`: every registry entry whose age since `lastUpdated`
strictly exceeds `CARD_CACHE_TTL` is deleted from `cardInstances` and
`cardUpdateTimestamps`, and its `cardUpdateTimeouts` handle is cleared
and deleted. -/
def cleanupCardCache (s : ChannelState) (now : Int) : ChannelState :=
  { s with
    cardInstances :=
      s.cardInstances.filter (fun p => ! decide (CARD_CACHE_TTL < now - p.2.lastUpdated)),
    cardUpdateTimestamps := s.cardUpdateTimestamps.filter (fun p => ! cardExpired s now p.1),
    cardUpdateTimeouts := s.cardUpdateTimeouts.filter (fun p => ! cardExpired s now p.1) }

/-- One event in a run of the card subsystem. -/
inductive Event
  | call (callId : Nat) (cardBizId : String) (text : String) (now : Int)
      (outcome : UpdateOutcome)
  | fire (cardBizId : String) (now : Int) (outcome : UpdateOutcome)
  | cleanup (now : Int)
deriving DecidableEq

def step (s : ChannelState) : Event → ChannelState
  | .call callId cardBizId text now outcome =>
      updateInteractiveCardThrottled s callId cardBizId text now outcome
  | .fire cardBizId now outcome => timerFire s cardBizId now outcome
  | .cleanup now => cleanupCardCache s now

def run (s : ChannelState) (evs : List Event) : ChannelState := evs.foldl step s

theorem run_append (s : ChannelState) (l1 l2 : List Event) :
    run s (l1 ++ l2) = run (run s l1) l2 :=
  List.foldl_append step s l1 l2

/-! ### Branch lemmas for the card operations -/

theorem updateInteractiveCard_success_snd (instances : List (String × CardInstance))
    (cardBizId : String) (now : Int) :
    (updateInteractiveCard instances cardBizId now .success).2 = Except.ok () := by
  unfold updateInteractiveCard
  cases lookupA cardBizId instances <;> rfl

theorem updateInteractiveCard_failure_snd (instances : List (String × CardInstance))
    (cardBizId : String) (now : Int) (status : Nat) :
    (updateInteractiveCard instances cardBizId now (.failure status)).2
      = Except.error status := by
  show (if status = 404 ∨ status = 410 ∨ status = 403
      then (removeA cardBizId instances, (Except.error status : Except Nat Unit))
      else (instances, Except.error status)).2 = Except.error status
  split <;> rfl

theorem throttled_immediate_success {s : ChannelState} {callId : Nat}
    {cardBizId text : String} {now : Int}
    (h : CARD_UPDATE_MIN_INTERVAL ≤ now - (lookupA cardBizId s.cardUpdateTimestamps).getD 0) :
    updateInteractiveCardThrottled s callId cardBizId text now .success =
      { cardInstances := (updateInteractiveCard s.cardInstances cardBizId now .success).1,
        cardUpdateTimestamps := setA cardBizId now s.cardUpdateTimestamps,
        cardUpdateTimeouts :=
          setA cardBizId ⟨now + CARD_UPDATE_TIMEOUT, .inactivity, true⟩
            (clearTimer s.cardUpdateTimeouts cardBizId),
        promises := setA callId .resolved s.promises,
        dispatches := s.dispatches ++ [⟨cardBizId, text, now, .success⟩] } := by
  simp only [updateInteractiveCardThrottled]
  rw [if_pos h]
  rcases hu : updateInteractiveCard s.cardInstances cardBizId now .success with ⟨insts, res⟩
  have hres : res = Except.ok () := by
    have h2 := updateInteractiveCard_success_snd s.cardInstances cardBizId now
    rw [hu] at h2
    exact h2
  subst hres
  rfl

theorem throttled_immediate_failure {s : ChannelState} {callId : Nat}
    {cardBizId text : String} {now : Int} {status : Nat}
    (h : CARD_UPDATE_MIN_INTERVAL ≤ now - (lookupA cardBizId s.cardUpdateTimestamps).getD 0) :
    updateInteractiveCardThrottled s callId cardBizId text now (.failure status) =
      { cardInstances :=
          (updateInteractiveCard s.cardInstances cardBizId now (.failure status)).1,
        cardUpdateTimestamps := setA cardBizId now s.cardUpdateTimestamps,
        cardUpdateTimeouts := clearTimer s.cardUpdateTimeouts cardBizId,
        promises := setA callId .rejected s.promises,
        dispatches := s.dispatches ++ [⟨cardBizId, text, now, .failure status⟩] } := by
  simp only [updateInteractiveCardThrottled]
  rw [if_pos h]
  rcases hu : updateInteractiveCard s.cardInstances cardBizId now (.failure status)
    with ⟨insts, res⟩
  have hres : res = Except.error status := by
    have h2 := updateInteractiveCard_failure_snd s.cardInstances cardBizId now status
    rw [hu] at h2
    exact h2
  subst hres
  rfl

theorem throttled_scheduled {s : ChannelState} {callId : Nat}
    {cardBizId text : String} {now : Int} {oc : UpdateOutcome}
    (h : ¬ CARD_UPDATE_MIN_INTERVAL ≤ now - (lookupA cardBizId s.cardUpdateTimestamps).getD 0) :
    updateInteractiveCardThrottled s callId cardBizId text now oc =
      { s with
        cardUpdateTimeouts :=
          setA cardBizId
            ⟨now + (CARD_UPDATE_MIN_INTERVAL
                - (now - (lookupA cardBizId s.cardUpdateTimestamps).getD 0)),
             .scheduled callId text, true⟩
            (clearTimer s.cardUpdateTimeouts cardBizId),
        promises := setA callId .pending s.promises } := by
  simp only [updateInteractiveCardThrottled]
  rw [if_neg h]

theorem timerFire_none {s : ChannelState} {cardBizId : String} {now : Int}
    {oc : UpdateOutcome} (h : lookupA cardBizId s.cardUpdateTimeouts = none) :
    timerFire s cardBizId now oc = s := by
  unfold timerFire
  rw [h]

theorem timerFire_inactivity {s : ChannelState} {cardBizId : String} {now : Int}
    {oc : UpdateOutcome}
    (h : lookupA cardBizId s.cardUpdateTimeouts = some ⟨now, .inactivity, true⟩) :
    timerFire s cardBizId now oc =
      { s with cardUpdateTimeouts := removeA cardBizId s.cardUpdateTimeouts } := by
  unfold timerFire
  rw [h]
  dsimp only
  rw [if_pos ⟨rfl, rfl⟩]

theorem timerFire_scheduled_success {s : ChannelState} {cardBizId text : String}
    {now : Int} {callId : Nat}
    (h : lookupA cardBizId s.cardUpdateTimeouts
      = some ⟨now, .scheduled callId text, true⟩) :
    timerFire s cardBizId now .success =
      { cardInstances := (updateInteractiveCard s.cardInstances cardBizId now .success).1,
        cardUpdateTimestamps := setA cardBizId now s.cardUpdateTimestamps,
        cardUpdateTimeouts :=
          setA cardBizId ⟨now + CARD_UPDATE_TIMEOUT, .inactivity, true⟩
            (setA cardBizId ⟨now, .scheduled callId text, false⟩ s.cardUpdateTimeouts),
        promises := setA callId .resolved s.promises,
        dispatches := s.dispatches ++ [⟨cardBizId, text, now, .success⟩] } := by
  unfold timerFire
  rw [h]
  dsimp only
  rw [if_pos ⟨rfl, rfl⟩]
  rcases hu : updateInteractiveCard s.cardInstances cardBizId now .success with ⟨insts, res⟩
  have hres : res = Except.ok () := by
    have h2 := updateInteractiveCard_success_snd s.cardInstances cardBizId now
    rw [hu] at h2
    exact h2
  subst hres
  rfl

theorem timerFire_scheduled_failure {s : ChannelState} {cardBizId text : String}
    {now : Int} {callId : Nat} {status : Nat}
    (h : lookupA cardBizId s.cardUpdateTimeouts
      = some ⟨now, .scheduled callId text, true⟩) :
    timerFire s cardBizId now (.failure status) =
      { cardInstances :=
          (updateInteractiveCard s.cardInstances cardBizId now (.failure status)).1,
        cardUpdateTimestamps := setA cardBizId now s.cardUpdateTimestamps,
        cardUpdateTimeouts :=
          setA cardBizId ⟨now, .scheduled callId text, false⟩ s.cardUpdateTimeouts,
        promises := setA callId .rejected s.promises,
        dispatches := s.dispatches ++ [⟨cardBizId, text, now, .failure status⟩] } := by
  unfold timerFire
  rw [h]
  dsimp only
  rw [if_pos ⟨rfl, rfl⟩]
  rcases hu : updateInteractiveCard s.cardInstances cardBizId now (.failure status)
    with ⟨insts, res⟩
  have hres : res = Except.error status := by
    have h2 := updateInteractiveCard_failure_snd s.cardInstances cardBizId now status
    rw [hu] at h2
    exact h2
  subst hres
  rfl

theorem timerFire_not_due {s : ChannelState} {cardBizId : String} {now : Int}
    {oc : UpdateOutcome} {t : Timer}
    (h : lookupA cardBizId s.cardUpdateTimeouts = some t)
    (hnot : ¬ (t.armed = true ∧ t.fireAt = now)) :
    timerFire s cardBizId now oc = s := by
  unfold timerFire
  rw [h]
  dsimp only
  rw [if_neg hnot]

/-! ### Lookup lemmas for filters and clearTimer -/

theorem lookupA_not_mem_keys {κ β : Type} [DecidableEq κ] {k : κ}
    {l : List (κ × β)} (h : k ∉ l.map Prod.fst) : lookupA k l = none := by
  induction l with
  | nil => rfl
  | cons p t ih =>
    obtain ⟨k0, v0⟩ := p
    simp only [List.map_cons, List.mem_cons, not_or] at h
    have hk : ¬ k0 = k := fun hh => h.1 hh.symm
    simp [lookupA, hk, ih h.2]

theorem lookupA_filter_none {κ β : Type} [DecidableEq κ] {k : κ}
    {l : List (κ × β)} (q : κ × β → Bool) (h : lookupA k l = none) :
    lookupA k (l.filter q) = none := by
  induction l with
  | nil => rfl
  | cons p t ih =>
    obtain ⟨k0, v0⟩ := p
    rw [lookupA] at h
    by_cases hk : k0 = k
    · rw [if_pos hk] at h
      exact absurd h (by simp)
    · rw [if_neg hk] at h
      cases hq : q (k0, v0) <;> simp [List.filter_cons, hq, lookupA, hk, ih h]

theorem lookupA_filter_nodup {κ β : Type} [DecidableEq κ] {k : κ} {v : β}
    {l : List (κ × β)} (q : κ × β → Bool)
    (hnd : (l.map Prod.fst).Nodup) (h : lookupA k l = some v) :
    lookupA k (l.filter q) = if q (k, v) then some v else none := by
  induction l with
  | nil => simp [lookupA] at h
  | cons p t ih =>
    obtain ⟨k0, v0⟩ := p
    simp only [List.map_cons, List.nodup_cons] at hnd
    by_cases hk : k0 = k
    · subst hk
      rw [lookupA, if_pos rfl] at h
      injection h with h
      subst h
      cases hq : q (k0, v0)
      · have hnone : lookupA k0 (t.filter q) = none := by
          apply lookupA_not_mem_keys
          intro hmem
          exact hnd.1 (((List.filter_sublist t).map Prod.fst).subset hmem)
        simp [List.filter_cons, hq, hnone]
      · simp [List.filter_cons, hq, lookupA]
    · rw [lookupA, if_neg hk] at h
      cases hq : q (k0, v0) <;>
        simp [List.filter_cons, hq, lookupA, hk, ih hnd.2 h]

theorem lookupA_filter_cardExpired {β : Type} (s : ChannelState) (now : Int)
    (k : String) (l : List (String × β)) :
    lookupA k (l.filter (fun p => ! cardExpired s now p.1)) =
      if cardExpired s now k then none else lookupA k l := by
  induction l with
  | nil => cases h : cardExpired s now k <;> simp [lookupA, h]
  | cons p t ih =>
    obtain ⟨k0, v0⟩ := p
    by_cases hk : k0 = k
    · subst hk
      cases hq : cardExpired s now k0 <;> simp [List.filter_cons, hq, lookupA, ih]
    · cases hq : cardExpired s now k0 <;>
        simp [List.filter_cons, hq, lookupA, hk, ih]

theorem lookupA_clearTimer_self (ts : List (String × Timer)) (cardBizId : String) :
    lookupA cardBizId (clearTimer ts cardBizId)
      = (lookupA cardBizId ts).map (fun t => { t with armed := false }) := by
  unfold clearTimer
  cases h : lookupA cardBizId ts with
  | none => simp [h]
  | some t => simp [h, lookupA_setA_self]

theorem lookupA_clearTimer_ne (ts : List (String × Timer)) {cardBizId id' : String}
    (h : id' ≠ cardBizId) :
    lookupA id' (clearTimer ts cardBizId) = lookupA id' ts := by
  unfold clearTimer
  cases hl : lookupA cardBizId ts with
  | none => rfl
  | some t => exact lookupA_setA_ne _ _ h

theorem updateInteractiveCard_success_none {instances : List (String × CardInstance)}
    {cardBizId : String} {now : Int}
    (h : lookupA cardBizId instances = none) :
    updateInteractiveCard instances cardBizId now .success = (instances, Except.ok ()) := by
  show (match lookupA cardBizId instances with
    | some inst => (setA cardBizId { inst with lastUpdated := now } instances,
        (Except.ok () : Except Nat Unit))
    | none => (instances, Except.ok ())) = (instances, Except.ok ())
  rw [h]

theorem updateInteractiveCard_failure_eq (instances : List (String × CardInstance))
    (cardBizId : String) (now : Int) (status : Nat) :
    updateInteractiveCard instances cardBizId now (.failure status)
      = ((if status = 404 ∨ status = 410 ∨ status = 403
          then removeA cardBizId instances else instances), Except.error status) := by
  show (if status = 404 ∨ status = 410 ∨ status = 403
      then (removeA cardBizId instances, (Except.error status : Except Nat Unit))
      else (instances, Except.error status))
    = ((if status = 404 ∨ status = 410 ∨ status = 403
        then removeA cardBizId instances else instances), Except.error status)
  by_cases hc : status = 404 ∨ status = 410 ∨ status = 403 <;> simp [hc]

/-- Combined form of the immediate branch, valid for every outcome: the
dispatch is appended to the log and the card's timestamp is stamped. -/
theorem throttled_immediate_dispatches_timestamps (s : ChannelState) (callId : Nat)
    (cardBizId text : String) (now : Int) (oc : UpdateOutcome)
    (h : CARD_UPDATE_MIN_INTERVAL ≤ now - (lookupA cardBizId s.cardUpdateTimestamps).getD 0) :
    (updateInteractiveCardThrottled s callId cardBizId text now oc).dispatches
      = s.dispatches ++ [⟨cardBizId, text, now, oc⟩] ∧
    (updateInteractiveCardThrottled s callId cardBizId text now oc).cardUpdateTimestamps
      = setA cardBizId now s.cardUpdateTimestamps ∧
    (updateInteractiveCardThrottled s callId cardBizId text now oc).cardInstances
      = (updateInteractiveCard s.cardInstances cardBizId now oc).1 := by
  cases oc with
  | success =>
    rw [throttled_immediate_success h]
    exact ⟨rfl, rfl, rfl⟩
  | failure status =>
    rw [throttled_immediate_failure h]
    exact ⟨rfl, rfl, rfl⟩

/-! ### C5: terminal provider errors evict the card -/

/-- C5 (confirmed): if the card-update call in `updateInteractiveCard`
fails with HTTP status 404, 410 or 403, the card's record is removed
from `cardInstances` and the error is re-thrown; if it fails with any
other status the registry is left untouched (same entry, `lastUpdated`
unchanged) and the error is still re-thrown. -/
theorem C5_terminal_error_eviction (instances : List (String × CardInstance))
    (cardBizId : String) (now : Int) (status : Nat) :
    ((status = 404 ∨ status = 410 ∨ status = 403) →
      updateInteractiveCard instances cardBizId now (.failure status)
        = (removeA cardBizId instances, Except.error status) ∧
      lookupA cardBizId
        (updateInteractiveCard instances cardBizId now (.failure status)).1 = none) ∧
    (¬ (status = 404 ∨ status = 410 ∨ status = 403) →
      updateInteractiveCard instances cardBizId now (.failure status)
        = (instances, Except.error status) ∧
      lookupA cardBizId
          (updateInteractiveCard instances cardBizId now (.failure status)).1
        = lookupA cardBizId instances) := by
  constructor
  · intro h
    have he : updateInteractiveCard instances cardBizId now (.failure status)
        = (removeA cardBizId instances, Except.error status) := by
      show (if status = 404 ∨ status = 410 ∨ status = 403
          then (removeA cardBizId instances, (Except.error status : Except Nat Unit))
          else (instances, Except.error status))
        = (removeA cardBizId instances, Except.error status)
      rw [if_pos h]
    refine ⟨he, ?_⟩
    rw [he]
    exact lookupA_removeA_self _ _
  · intro h
    have he : updateInteractiveCard instances cardBizId now (.failure status)
        = (instances, Except.error status) := by
      show (if status = 404 ∨ status = 410 ∨ status = 403
          then (removeA cardBizId instances, (Except.error status : Except Nat Unit))
          else (instances, Except.error status))
        = (instances, Except.error status)
      rw [if_neg h]
    refine ⟨he, ?_⟩
    rw [he]

/-- C5 witness: concrete instantiation of `C5_terminal_error_eviction`
at status 404 with a one-card registry. -/
theorem C5_terminal_error_eviction_witness :
    updateInteractiveCard [("card_1", ⟨"card_1", "cid_9", 0, 1000⟩)] "card_1" 5000
        (.failure 404)
      = (removeA "card_1" [("card_1", ⟨"card_1", "cid_9", 0, 1000⟩)],
         Except.error 404) ∧
    lookupA "card_1"
      (updateInteractiveCard [("card_1", ⟨"card_1", "cid_9", 0, 1000⟩)] "card_1" 5000
        (.failure 404)).1 = none :=
  (C5_terminal_error_eviction [("card_1", ⟨"card_1", "cid_9", 0, 1000⟩)] "card_1" 5000
    404).1 (Or.inl rfl)

/-! ### C7: the sweep removes exactly the over-TTL records -/

/-- C7 (confirmed): a run of `cleanupCardCache` removes exactly the
registry records whose age since `lastUpdated` strictly exceeds
`CARD_CACHE_TTL`: every such record is deleted from `cardInstances`,
`cardUpdateTimestamps` and `cardUpdateTimeouts` (so its pending timer is
gone and a subsequent timer firing for it is a no-op — no timer fires
after eviction), while every record whose age does not exceed the TTL
keeps its registry entry, timestamp entry and timeout entry unchanged. -/
theorem C7_sweep_exact (s : ChannelState) (now : Int) (cardBizId : String)
    (hnd : (s.cardInstances.map Prod.fst).Nodup) :
    (∀ inst, lookupA cardBizId s.cardInstances = some inst →
      CARD_CACHE_TTL < now - inst.lastUpdated →
      lookupA cardBizId (cleanupCardCache s now).cardInstances = none ∧
      lookupA cardBizId (cleanupCardCache s now).cardUpdateTimestamps = none ∧
      lookupA cardBizId (cleanupCardCache s now).cardUpdateTimeouts = none ∧
      (∀ t oc, timerFire (cleanupCardCache s now) cardBizId t oc
        = cleanupCardCache s now)) ∧
    (∀ inst, lookupA cardBizId s.cardInstances = some inst →
      now - inst.lastUpdated ≤ CARD_CACHE_TTL →
      lookupA cardBizId (cleanupCardCache s now).cardInstances = some inst ∧
      lookupA cardBizId (cleanupCardCache s now).cardUpdateTimestamps
        = lookupA cardBizId s.cardUpdateTimestamps ∧
      lookupA cardBizId (cleanupCardCache s now).cardUpdateTimeouts
        = lookupA cardBizId s.cardUpdateTimeouts) := by
  constructor
  · intro inst hlook hage
    have hexp : cardExpired s now cardBizId = true := by
      unfold cardExpired
      rw [hlook]
      simpa using hage
    have hts : lookupA cardBizId (cleanupCardCache s now).cardUpdateTimestamps = none := by
      show lookupA cardBizId
        (s.cardUpdateTimestamps.filter (fun p => ! cardExpired s now p.1)) = none
      rw [lookupA_filter_cardExpired, if_pos hexp]
    have hto : lookupA cardBizId (cleanupCardCache s now).cardUpdateTimeouts = none := by
      show lookupA cardBizId
        (s.cardUpdateTimeouts.filter (fun p => ! cardExpired s now p.1)) = none
      rw [lookupA_filter_cardExpired, if_pos hexp]
    refine ⟨?_, hts, hto, ?_⟩
    · show lookupA cardBizId
        (s.cardInstances.filter
          (fun p => ! decide (CARD_CACHE_TTL < now - p.2.lastUpdated))) = none
      rw [lookupA_filter_nodup _ hnd hlook]
      simp [hage]
    · intro t oc
      exact timerFire_none hto
  · intro inst hlook hage
    have hexp : cardExpired s now cardBizId = false := by
      unfold cardExpired
      rw [hlook]
      simpa using hage
    refine ⟨?_, ?_, ?_⟩
    · show lookupA cardBizId
        (s.cardInstances.filter
          (fun p => ! decide (CARD_CACHE_TTL < now - p.2.lastUpdated)))
        = some inst
      rw [lookupA_filter_nodup _ hnd hlook]
      simp [not_lt.mpr hage]
    · show lookupA cardBizId
        (s.cardUpdateTimestamps.filter (fun p => ! cardExpired s now p.1))
        = lookupA cardBizId s.cardUpdateTimestamps
      rw [lookupA_filter_cardExpired, if_neg (by simp [hexp])]
    · show lookupA cardBizId
        (s.cardUpdateTimeouts.filter (fun p => ! cardExpired s now p.1))
        = lookupA cardBizId s.cardUpdateTimeouts
      rw [lookupA_filter_cardExpired, if_neg (by simp [hexp])]

/-- C7 witness: concrete instantiation of `C7_sweep_exact` — a card last
updated at t=1000 is evicted by a sweep at t=7300000 (age above the one
hour TTL) with its timestamp and timer entries removed. -/
theorem C7_sweep_exact_witness :
    lookupA "old" (cleanupCardCache
      ⟨[("old", ⟨"old", "c1", 0, 1000⟩)], [("old", 1000)],
       [("old", ⟨61000, .inactivity, true⟩)], [], []⟩ 7300000).cardInstances = none ∧
    lookupA "old" (cleanupCardCache
      ⟨[("old", ⟨"old", "c1", 0, 1000⟩)], [("old", 1000)],
       [("old", ⟨61000, .inactivity, true⟩)], [], []⟩ 7300000).cardUpdateTimestamps
      = none ∧
    lookupA "old" (cleanupCardCache
      ⟨[("old", ⟨"old", "c1", 0, 1000⟩)], [("old", 1000)],
       [("old", ⟨61000, .inactivity, true⟩)], [], []⟩ 7300000).cardUpdateTimeouts
      = none ∧
    (∀ t oc, timerFire (cleanupCardCache
        ⟨[("old", ⟨"old", "c1", 0, 1000⟩)], [("old", 1000)],
         [("old", ⟨61000, .inactivity, true⟩)], [], []⟩ 7300000) "old" t oc
      = cleanupCardCache
        ⟨[("old", ⟨"old", "c1", 0, 1000⟩)], [("old", 1000)],
         [("old", ⟨61000, .inactivity, true⟩)], [], []⟩ 7300000) :=
  (C7_sweep_exact
    ⟨[("old", ⟨"old", "c1", 0, 1000⟩)], [("old", 1000)],
     [("old", ⟨61000, .inactivity, true⟩)], [], []⟩ 7300000 "old" (by decide)).1
    ⟨"old", "c1", 0, 1000⟩ rfl (by decide)

/-! ### C8: throttle timing of a single call and of separated dispatches -/

/-- C8 (confirmed): a throttled update whose elapsed time since the
target's last recorded dispatch is at least `CARD_UPDATE_MIN_INTERVAL`
(500 ms) dispatches immediately — including a target with no prior
dispatch, whose recorded timestamp defaults to 0, so at any wall-clock
time ≥ 500 a first dispatch is never throttled; otherwise the dispatch
is delayed by exactly `minInterval − elapsed` (a timer armed for
`now + (500 − (now − lastUpdate))`).  Two calls for the same target
separated by at least the interval are both dispatched, in order. -/
theorem C8_throttle_timing :
    (∀ (s : ChannelState) (callId : Nat) (cardBizId text : String) (now : Int)
        (oc : UpdateOutcome),
      (lookupA cardBizId s.cardUpdateTimestamps).getD 0 + CARD_UPDATE_MIN_INTERVAL ≤ now →
      (updateInteractiveCardThrottled s callId cardBizId text now oc).dispatches
        = s.dispatches ++ [⟨cardBizId, text, now, oc⟩]) ∧
    (∀ (s : ChannelState) (callId : Nat) (cardBizId text : String) (now lastUpdate : Int)
        (oc : UpdateOutcome),
      lookupA cardBizId s.cardUpdateTimestamps = some lastUpdate →
      now < lastUpdate + CARD_UPDATE_MIN_INTERVAL →
      (updateInteractiveCardThrottled s callId cardBizId text now oc).dispatches
        = s.dispatches ∧
      lookupA cardBizId
          (updateInteractiveCardThrottled s callId cardBizId text now oc).cardUpdateTimeouts
        = some ⟨now + (CARD_UPDATE_MIN_INTERVAL - (now - lastUpdate)),
            .scheduled callId text, true⟩) ∧
    (∀ (s : ChannelState) (cid1 cid2 : Nat) (cardBizId text1 text2 : String)
        (t1 t2 : Int) (oc1 oc2 : UpdateOutcome),
      (lookupA cardBizId s.cardUpdateTimestamps).getD 0 + CARD_UPDATE_MIN_INTERVAL ≤ t1 →
      t1 + CARD_UPDATE_MIN_INTERVAL ≤ t2 →
      (run s [.call cid1 cardBizId text1 t1 oc1,
              .call cid2 cardBizId text2 t2 oc2]).dispatches
        = s.dispatches ++ [⟨cardBizId, text1, t1, oc1⟩, ⟨cardBizId, text2, t2, oc2⟩]) := by
  refine ⟨?_, ?_, ?_⟩
  · intro s callId cardBizId text now oc h
    exact (throttled_immediate_dispatches_timestamps s callId cardBizId text now oc
      (by omega)).1
  · intro s callId cardBizId text now lastUpdate oc hlook hlt
    have hcond : ¬ CARD_UPDATE_MIN_INTERVAL
        ≤ now - (lookupA cardBizId s.cardUpdateTimestamps).getD 0 := by
      rw [hlook]
      simp only [Option.getD_some]
      omega
    rw [throttled_scheduled hcond]
    refine ⟨rfl, ?_⟩
    show lookupA cardBizId (setA cardBizId _ _) = _
    rw [lookupA_setA_self, hlook]
    rfl
  · intro s cid1 cid2 cardBizId text1 text2 t1 t2 oc1 oc2 h1 h2
    have hc1 : CARD_UPDATE_MIN_INTERVAL
        ≤ t1 - (lookupA cardBizId s.cardUpdateTimestamps).getD 0 := by omega
    have e1 := throttled_immediate_dispatches_timestamps s cid1 cardBizId text1 t1 oc1 hc1
    have hc2 : CARD_UPDATE_MIN_INTERVAL ≤ t2 - (lookupA cardBizId
        (updateInteractiveCardThrottled s cid1 cardBizId text1 t1 oc1).cardUpdateTimestamps).getD 0 := by
      rw [e1.2.1, lookupA_setA_self]
      simp only [Option.getD_some]
      omega
    have e2 := throttled_immediate_dispatches_timestamps
      (updateInteractiveCardThrottled s cid1 cardBizId text1 t1 oc1)
      cid2 cardBizId text2 t2 oc2 hc2
    show (updateInteractiveCardThrottled
        (updateInteractiveCardThrottled s cid1 cardBizId text1 t1 oc1)
        cid2 cardBizId text2 t2 oc2).dispatches = _
    rw [e2.1, e1.1, List.append_assoc]
    rfl

/-- C8 witness: concrete instantiation of `C8_throttle_timing` — two
calls at t=1000 and t=1500 on a fresh target are both dispatched, in
order. -/
theorem C8_throttle_timing_witness :
    (run emptyChannelState
        [.call 1 "c" "a" 1000 .success, .call 2 "c" "b" 1500 .success]).dispatches
      = emptyChannelState.dispatches
          ++ [⟨"c", "a", 1000, .success⟩, ⟨"c", "b", 1500, .success⟩] :=
  C8_throttle_timing.2.2 emptyChannelState 1 2 "c" "a" "b" 1000 1500 .success .success
    (by decide) (by decide)

/-! ### C9: the throttler maps are not registry-bounded -/

/-- C9 counterexample: the claimed invariant that throttler entries only
exist for registry-known targets is false — one throttled update on a
target absent from `cardInstances` leaves a `cardUpdateTimestamps` entry
and a `cardUpdateTimeouts` entry for a card id with no registry record. -/
theorem C9_counterexample :
    lookupA "card_x"
      (updateInteractiveCardThrottled emptyChannelState 0 "card_x" "hello" 1000
        .success).cardInstances = none ∧
    lookupA "card_x"
      (updateInteractiveCardThrottled emptyChannelState 0 "card_x" "hello" 1000
        .success).cardUpdateTimestamps = some 1000 ∧
    lookupA "card_x"
      (updateInteractiveCardThrottled emptyChannelState 0 "card_x" "hello" 1000
        .success).cardUpdateTimeouts = some ⟨61000, .inactivity, true⟩ := by
  refine ⟨rfl, rfl, rfl⟩

/-- C9 (amended): the throttler never consults the registry: a throttled
update call on a target with no `cardInstances` record still records
throttler-side state for it (a timestamp entry on the immediate path, a
timeout entry on the delayed path) while the target stays absent from
the registry — so the set of targets with throttler-side pending state
is not a subset of the registry-known targets. -/
theorem C9_throttler_independent (s : ChannelState) (callId : Nat)
    (cardBizId text : String) (now : Int) (oc : UpdateOutcome)
    (h : lookupA cardBizId s.cardInstances = none) :
    lookupA cardBizId
      (updateInteractiveCardThrottled s callId cardBizId text now oc).cardInstances
      = none ∧
    (lookupA cardBizId
        (updateInteractiveCardThrottled s callId cardBizId text now oc).cardUpdateTimestamps
        ≠ none ∨
     lookupA cardBizId
        (updateInteractiveCardThrottled s callId cardBizId text now oc).cardUpdateTimeouts
        ≠ none) := by
  by_cases hbr : CARD_UPDATE_MIN_INTERVAL
      ≤ now - (lookupA cardBizId s.cardUpdateTimestamps).getD 0
  · have e := throttled_immediate_dispatches_timestamps s callId cardBizId text now oc hbr
    constructor
    · rw [e.2.2]
      cases oc with
      | success =>
        rw [updateInteractiveCard_success_none h]
        exact h
      | failure status =>
        rw [updateInteractiveCard_failure_eq]
        by_cases hc : status = 404 ∨ status = 410 ∨ status = 403
        · simp only [if_pos hc]
          exact lookupA_removeA_self _ _
        · simp only [if_neg hc]
          exact h
    · left
      rw [e.2.1, lookupA_setA_self]
      simp
  · rw [throttled_scheduled hbr]
    refine ⟨h, Or.inr ?_⟩
    show lookupA cardBizId (setA cardBizId _ _) ≠ none
    rw [lookupA_setA_self]
    simp

/-- C9 witness: concrete instantiation of `C9_throttler_independent`. -/
theorem C9_throttler_independent_witness :
    lookupA "card_y"
      (updateInteractiveCardThrottled emptyChannelState 3 "card_y" "txt" 2000
        .success).cardInstances = none ∧
    (lookupA "card_y"
        (updateInteractiveCardThrottled emptyChannelState 3 "card_y" "txt" 2000
          .success).cardUpdateTimestamps ≠ none ∨
     lookupA "card_y"
        (updateInteractiveCardThrottled emptyChannelState 3 "card_y" "txt" 2000
          .success).cardUpdateTimeouts ≠ none) :=
  C9_throttler_independent emptyChannelState 3 "card_y" "txt" 2000 .success rfl

/-! ### C4: finalization is only a timeout-entry removal -/

/-- C4 counterexample: the claim that an update on a finalized or
unknown target fails with TargetNotOpen is false — on a target that was
never registered in `cardInstances`, a call at t=1000 dispatches, the
inactivity timeout fires at t=61000 ("finalized"), and a further
throttled call at t=61500 dispatches again and resolves successfully
instead of failing. -/
theorem C4_counterexample :
    (run emptyChannelState
        [.call 0 "c" "a" 1000 .success, .fire "c" 61000 .success,
         .call 1 "c" "b" 61500 .success]).dispatches
      = [⟨"c", "a", 1000, .success⟩, ⟨"c", "b", 61500, .success⟩] ∧
    lookupA 1 (run emptyChannelState
        [.call 0 "c" "a" 1000 .success, .fire "c" 61000 .success,
         .call 1 "c" "b" 61500 .success]).promises = some .resolved ∧
    lookupA "c" emptyChannelState.cardInstances = none := by
  refine ⟨rfl, rfl, rfl⟩

/-- C4 (amended): when the 60 s inactivity timeout fires, the only effect
is that the card's `cardUpdateTimeouts` entry is deleted (plus a debug
log calling the card finalized); registry, timestamps, promises and the
dispatch log are untouched.  A subsequent throttled update on the
finalized target does not fail — there is no TargetNotOpen error in the
code — and, the throttle interval having passed, it dispatches
normally. -/
theorem C4_finalize_behavior (s : ChannelState) (cardBizId : String) (now : Int)
    (oc : UpdateOutcome)
    (h : lookupA cardBizId s.cardUpdateTimeouts = some ⟨now, .inactivity, true⟩) :
    timerFire s cardBizId now oc
      = { s with cardUpdateTimeouts := removeA cardBizId s.cardUpdateTimeouts } ∧
    (∀ (callId : Nat) (text : String) (t : Int) (oc' : UpdateOutcome),
      (lookupA cardBizId s.cardUpdateTimestamps).getD 0 + CARD_UPDATE_MIN_INTERVAL ≤ t →
      (updateInteractiveCardThrottled (timerFire s cardBizId now oc) callId cardBizId
          text t oc').dispatches
        = s.dispatches ++ [⟨cardBizId, text, t, oc'⟩]) := by
  have hfire := @timerFire_inactivity s cardBizId now oc h
  refine ⟨hfire, ?_⟩
  intro callId text t oc' ht
  rw [hfire]
  have hC : CARD_UPDATE_MIN_INTERVAL ≤ t - (lookupA cardBizId
      ({ s with cardUpdateTimeouts := removeA cardBizId s.cardUpdateTimeouts } :
        ChannelState).cardUpdateTimestamps).getD 0 := by
    dsimp only
    omega
  exact (throttled_immediate_dispatches_timestamps
    { s with cardUpdateTimeouts := removeA cardBizId s.cardUpdateTimeouts }
    callId cardBizId text t oc' hC).1

/-- C4 witness: concrete instantiation of `C4_finalize_behavior` on a
card whose inactivity timeout is due at t=61000. -/
theorem C4_finalize_behavior_witness :
    timerFire ⟨[], [("c", 1000)], [("c", ⟨61000, .inactivity, true⟩)], [], []⟩
        "c" 61000 .success
      = { (⟨[], [("c", 1000)], [("c", ⟨61000, .inactivity, true⟩)], [], []⟩ :
          ChannelState) with
          cardUpdateTimeouts :=
            removeA "c" [("c", ⟨61000, .inactivity, true⟩)] } ∧
    (∀ (callId : Nat) (text : String) (t : Int) (oc' : UpdateOutcome),
      (lookupA "c" [("c", (1000 : Int))]).getD 0 + CARD_UPDATE_MIN_INTERVAL ≤ t →
      (updateInteractiveCardThrottled
          (timerFire ⟨[], [("c", 1000)], [("c", ⟨61000, .inactivity, true⟩)], [], []⟩
            "c" 61000 .success) callId "c" text t oc').dispatches
        = [] ++ [⟨"c", text, t, oc'⟩]) :=
  C4_finalize_behavior ⟨[], [("c", 1000)], [("c", ⟨61000, .inactivity, true⟩)], [], []⟩
    "c" 61000 .success rfl

/-! ### C1: coalescing of calls inside one throttle window -/

/-- One call of a burst: call id, text and call time. -/
structure BurstCall where
  callId : Nat
  text : String
  time : Int
deriving DecidableEq

/-- The events of a burst of throttled calls on one card (all dispatch
outcomes successful). -/
def burstEvents (cardBizId : String) (calls : List BurstCall) : List Event :=
  calls.map (fun c => .call c.callId cardBizId c.text c.time .success)

def lastCall : List BurstCall → Option BurstCall
  | [] => none
  | [c] => some c
  | _ :: c' :: t => lastCall (c' :: t)

/-- Folding a burst of calls that all fall inside the open throttle
window `[T, T + minInterval)` of a target whose last dispatch stamp is
`T` leaves timestamps, dispatch log and registry unchanged, and leaves
the card's single timer armed for `T + minInterval` carrying the last
call's id and text. -/
theorem burst_fold (cardBizId : String) (T : Int) (calls : List BurstCall) :
    ∀ (s : ChannelState),
    lookupA cardBizId s.cardUpdateTimestamps = some T →
    (∀ c ∈ calls, T ≤ c.time ∧ c.time < T + CARD_UPDATE_MIN_INTERVAL) →
    (run s (burstEvents cardBizId calls)).cardUpdateTimestamps
        = s.cardUpdateTimestamps ∧
    (run s (burstEvents cardBizId calls)).dispatches = s.dispatches ∧
    (run s (burstEvents cardBizId calls)).cardInstances = s.cardInstances ∧
    (∀ c, lastCall calls = some c →
      lookupA cardBizId (run s (burstEvents cardBizId calls)).cardUpdateTimeouts
        = some ⟨T + CARD_UPDATE_MIN_INTERVAL, .scheduled c.callId c.text, true⟩) := by
  induction calls with
  | nil =>
    intro s hT _
    exact ⟨rfl, rfl, rfl, fun c hc => by simp [lastCall] at hc⟩
  | cons c cs ih =>
    intro s hT hwin
    have hc := hwin c (List.mem_cons_self c cs)
    have hcond : ¬ CARD_UPDATE_MIN_INTERVAL
        ≤ c.time - (lookupA cardBizId s.cardUpdateTimestamps).getD 0 := by
      rw [hT]
      simp only [Option.getD_some]
      omega
    have hrun : run s (burstEvents cardBizId (c :: cs))
        = run (updateInteractiveCardThrottled s c.callId cardBizId c.text c.time .success)
            (burstEvents cardBizId cs) := rfl
    rw [hrun, throttled_scheduled hcond]
    have hT1 : lookupA cardBizId
        ({ s with
            cardUpdateTimeouts :=
              setA cardBizId
                ⟨c.time + (CARD_UPDATE_MIN_INTERVAL
                    - (c.time - (lookupA cardBizId s.cardUpdateTimestamps).getD 0)),
                 .scheduled c.callId c.text, true⟩
                (clearTimer s.cardUpdateTimeouts cardBizId),
            promises := setA c.callId .pending s.promises } :
          ChannelState).cardUpdateTimestamps = some T := hT
    obtain ⟨h1, h2, h3, h4⟩ := ih _ hT1 (fun b hb => hwin b (List.mem_cons_of_mem _ hb))
    refine ⟨h1, h2, h3, ?_⟩
    intro b hb
    cases cs with
    | nil =>
      simp only [lastCall, Option.some.injEq] at hb
      subst hb
      have harith : c.time + (CARD_UPDATE_MIN_INTERVAL
          - (c.time - (lookupA cardBizId s.cardUpdateTimestamps).getD 0))
          = T + CARD_UPDATE_MIN_INTERVAL := by
        rw [hT]
        simp only [Option.getD_some]
        omega
      show lookupA cardBizId (setA cardBizId _ _) = _
      rw [lookupA_setA_self, harith]
    | cons d ds =>
      exact h4 b hb

/-- C1 counterexample: the claim that a sequence of calls issued within
less than `minUpdateInterval` of each other produces at most one
dispatch is false — calls on target "c" at t=1000, 1400 and 1800
(inter-call gaps of 400 ms, both below the 500 ms interval) produce
three dispatches: "c1" at 1000 (immediate), "c2" at 1500 and "c3" at
2000 (when the armed timers fire). -/
theorem C1_counterexample :
    (run emptyChannelState
        [.call 1 "c" "c1" 1000 .success, .call 2 "c" "c2" 1400 .success,
         .fire "c" 1500 .success, .call 3 "c" "c3" 1800 .success,
         .fire "c" 2000 .success]).dispatches
      = [⟨"c", "c1", 1000, .success⟩, ⟨"c", "c2", 1500, .success⟩,
         ⟨"c", "c3", 2000, .success⟩] ∧
    ((1400 : Int) - 1000 < CARD_UPDATE_MIN_INTERVAL ∧
     (1800 : Int) - 1400 < CARD_UPDATE_MIN_INTERVAL) :=
  ⟨rfl, by decide⟩

/-- C1 (amended): calls arriving inside a single throttle window are
coalesced into exactly one dispatch.  If the target's last dispatch
stamp is `T` and every call of the burst arrives at a time in
`[T, T + minUpdateInterval)`, then after the armed timer fires at
`T + minUpdateInterval` exactly one new dispatch has occurred, and its
content is the text of the last call of the burst — each newer call
cancels the previously armed timer, so no older content is dispatched
after newer content was scheduled. -/
theorem C1_burst_coalesced (cardBizId : String) (calls : List BurstCall)
    (s : ChannelState) (T : Int) (c : BurstCall) (oc : UpdateOutcome)
    (hT : lookupA cardBizId s.cardUpdateTimestamps = some T)
    (hwin : ∀ b ∈ calls, T ≤ b.time ∧ b.time < T + CARD_UPDATE_MIN_INTERVAL)
    (hlast : lastCall calls = some c) :
    (run s (burstEvents cardBizId calls
        ++ [.fire cardBizId (T + CARD_UPDATE_MIN_INTERVAL) oc])).dispatches
      = s.dispatches ++ [⟨cardBizId, c.text, T + CARD_UPDATE_MIN_INTERVAL, oc⟩] := by
  obtain ⟨h1, h2, h3, h4⟩ := burst_fold cardBizId T calls s hT hwin
  rw [run_append]
  have htimer := h4 c hlast
  show (timerFire (run s (burstEvents cardBizId calls)) cardBizId
      (T + CARD_UPDATE_MIN_INTERVAL) oc).dispatches = _
  cases oc with
  | success =>
    rw [timerFire_scheduled_success htimer]
    dsimp only
    rw [h2]
  | failure status =>
    rw [timerFire_scheduled_failure htimer]
    dsimp only
    rw [h2]

/-- C1 witness: concrete instantiation of `C1_burst_coalesced` — after a
dispatch at T=1000, calls "a"@1100 and "b"@1400 coalesce into the single
dispatch of "b" at t=1500. -/
theorem C1_burst_coalesced_witness :
    (run (⟨[], [("c", 1000)], [], [], []⟩ : ChannelState)
        (burstEvents "c" [⟨1, "a", 1100⟩, ⟨2, "b", 1400⟩]
          ++ [.fire "c" (1000 + CARD_UPDATE_MIN_INTERVAL) .success])).dispatches
      = (⟨[], [("c", 1000)], [], [], []⟩ : ChannelState).dispatches
          ++ [⟨"c", "b", 1000 + CARD_UPDATE_MIN_INTERVAL, .success⟩] :=
  C1_burst_coalesced "c" [⟨1, "a", 1100⟩, ⟨2, "b", 1400⟩]
    ⟨[], [("c", 1000)], [], [], []⟩ 1000 ⟨2, "b", 1400⟩ .success rfl (by decide) rfl

/-! ### C10: a superseded throttled call's promise never settles

The `resolve`/`reject` of a throttled call's promise live only inside
the `setTimeout` callback the call itself armed (channel.ts lines
571-592).  Once a newer call for the same card clears that handle, no
code path can ever settle the older promise. -/

def eventCallId : Event → Option Nat
  | .call callId _ _ _ _ => some callId
  | _ => none

/-- No armed scheduled-dispatch handle in `X` belongs to call `a`. -/
def TimeoutsClearOf (X : List (String × Timer)) (a : Nat) : Prop :=
  ∀ id t, lookupA id X = some t → t.armed = true →
    ∀ text, t.kind ≠ TimerKind.scheduled a text

/-- No armed scheduled-dispatch handle of call `a` exists in the state. -/
def NoArmedScheduledFor (s : ChannelState) (a : Nat) : Prop :=
  TimeoutsClearOf s.cardUpdateTimeouts a

theorem clearTimer_preserves {X : List (String × Timer)} {a : Nat}
    (h : TimeoutsClearOf X a) (cardBizId : String) :
    TimeoutsClearOf (clearTimer X cardBizId) a := by
  intro id t hl harm txt
  by_cases hid : id = cardBizId
  · subst hid
    rw [lookupA_clearTimer_self] at hl
    cases h0 : lookupA id X with
    | none =>
      rw [h0] at hl
      simp at hl
    | some t0 =>
      rw [h0] at hl
      simp only [Option.map_some'] at hl
      injection hl with hl
      rw [← hl] at harm
      simp at harm
  · rw [lookupA_clearTimer_ne _ hid] at hl
    exact h id t hl harm txt

theorem setA_timer_preserves {X : List (String × Timer)} {a : Nat}
    (h : TimeoutsClearOf X a) (cardBizId : String) (tnew : Timer)
    (hnew : tnew.armed = true → ∀ text, tnew.kind ≠ TimerKind.scheduled a text) :
    TimeoutsClearOf (setA cardBizId tnew X) a := by
  intro id t hl harm txt
  by_cases hid : id = cardBizId
  · subst hid
    rw [lookupA_setA_self] at hl
    injection hl with hl
    subst hl
    exact hnew harm txt
  · rw [lookupA_setA_ne _ _ hid] at hl
    exact h id t hl harm txt

theorem removeA_timer_preserves {X : List (String × Timer)} {a : Nat}
    (h : TimeoutsClearOf X a) (cardBizId : String) :
    TimeoutsClearOf (removeA cardBizId X) a := by
  intro id t hl harm txt
  by_cases hid : id = cardBizId
  · subst hid
    rw [lookupA_removeA_self] at hl
    exact absurd hl (by simp)
  · rw [lookupA_removeA_ne _ hid] at hl
    exact h id t hl harm txt

theorem TimeoutsClearOf_clearTimer_setA {X : List (String × Timer)} {a : Nat}
    (h : TimeoutsClearOf X a) (cardBizId : String) (tA : Timer) :
    TimeoutsClearOf (clearTimer (setA cardBizId tA X) cardBizId) a := by
  intro id t hl harm txt
  by_cases hid : id = cardBizId
  · subst hid
    rw [lookupA_clearTimer_self, lookupA_setA_self] at hl
    simp only [Option.map_some'] at hl
    injection hl with hl
    rw [← hl] at harm
    simp at harm
  · rw [lookupA_clearTimer_ne _ hid, lookupA_setA_ne _ _ hid] at hl
    exact h id t hl harm txt

/-- Any single event whose call id is not `a` preserves both the absence
of an armed scheduled handle for `a` and the pendingness of `a`'s
promise. -/
theorem step_preserves_superseded {s : ChannelState} {a : Nat} {e : Event}
    (hinv : NoArmedScheduledFor s a)
    (hpend : lookupA a s.promises = some PromiseStatus.pending)
    (hfresh : eventCallId e ≠ some a) :
    NoArmedScheduledFor (step s e) a ∧
    lookupA a (step s e).promises = some PromiseStatus.pending := by
  cases e with
  | call callId cardBizId text now oc =>
    simp only [step]
    have hca : a ≠ callId := by
      intro hh
      exact hfresh (by rw [hh]; rfl)
    by_cases hbr : CARD_UPDATE_MIN_INTERVAL
        ≤ now - (lookupA cardBizId s.cardUpdateTimestamps).getD 0
    · cases oc with
      | success =>
        rw [throttled_immediate_success hbr]
        refine ⟨setA_timer_preserves (clearTimer_preserves hinv cardBizId) cardBizId _
          (by intro _ txt; simp), ?_⟩
        dsimp only
        rw [lookupA_setA_ne _ _ hca]
        exact hpend
      | failure status =>
        rw [throttled_immediate_failure hbr]
        refine ⟨clearTimer_preserves hinv cardBizId, ?_⟩
        dsimp only
        rw [lookupA_setA_ne _ _ hca]
        exact hpend
    · rw [throttled_scheduled hbr]
      refine ⟨setA_timer_preserves (clearTimer_preserves hinv cardBizId) cardBizId _
        (by intro _ txt hk; injection hk with h1 h2; exact hca h1.symm), ?_⟩
      dsimp only
      rw [lookupA_setA_ne _ _ hca]
      exact hpend
  | fire cardBizId now oc =>
    simp only [step]
    cases hl : lookupA cardBizId s.cardUpdateTimeouts with
    | none =>
      rw [timerFire_none hl]
      exact ⟨hinv, hpend⟩
    | some t =>
      by_cases hdue : t.armed = true ∧ t.fireAt = now
      · obtain ⟨harm, hfa⟩ := hdue
        cases hk : t.kind with
        | inactivity =>
          have ht : t = ⟨now, TimerKind.inactivity, true⟩ := by
            cases t
            simp_all
          rw [ht] at hl
          rw [@timerFire_inactivity s cardBizId now oc hl]
          exact ⟨removeA_timer_preserves hinv cardBizId, hpend⟩
        | scheduled callId2 text2 =>
          have hca2 : a ≠ callId2 := by
            intro hh
            apply hinv cardBizId t hl harm text2
            rw [hk, hh]
          have ht : t = ⟨now, TimerKind.scheduled callId2 text2, true⟩ := by
            cases t
            simp_all
          rw [ht] at hl
          cases oc with
          | success =>
            rw [timerFire_scheduled_success hl]
            refine ⟨setA_timer_preserves
              (setA_timer_preserves hinv cardBizId _ (by intro h; simp at h))
              cardBizId _ (by intro _ txt; simp), ?_⟩
            dsimp only
            rw [lookupA_setA_ne _ _ hca2]
            exact hpend
          | failure status =>
            rw [timerFire_scheduled_failure hl]
            refine ⟨setA_timer_preserves hinv cardBizId _ (by intro h; simp at h), ?_⟩
            dsimp only
            rw [lookupA_setA_ne _ _ hca2]
            exact hpend
      · rw [timerFire_not_due hl hdue]
        exact ⟨hinv, hpend⟩
  | cleanup now =>
    simp only [step]
    refine ⟨?_, hpend⟩
    intro id t hl harm txt
    have hshape : (cleanupCardCache s now).cardUpdateTimeouts
        = s.cardUpdateTimeouts.filter (fun p => ! cardExpired s now p.1) := rfl
    rw [hshape, lookupA_filter_cardExpired] at hl
    cases hexp : cardExpired s now id with
    | true => simp [hexp] at hl
    | false =>
      simp only [hexp] at hl
      rw [if_neg (by simp)] at hl
      exact hinv id t hl harm txt

theorem run_preserves_superseded {a : Nat} (evs : List Event) :
    ∀ (s : ChannelState), NoArmedScheduledFor s a →
    lookupA a s.promises = some PromiseStatus.pending →
    (∀ e ∈ evs, eventCallId e ≠ some a) →
    NoArmedScheduledFor (run s evs) a ∧
    lookupA a (run s evs).promises = some PromiseStatus.pending := by
  induction evs with
  | nil =>
    intro s h1 h2 _
    exact ⟨h1, h2⟩
  | cons e t ih =>
    intro s h1 h2 hf
    have hstep := step_preserves_superseded h1 h2 (hf e (List.mem_cons_self e t))
    exact ih (step s e) hstep.1 hstep.2 (fun e' he' => hf e' (List.mem_cons_of_mem _ he'))

/-- A throttled call on a card whose (just-cleared) timer map already
contains no armed scheduled handle of `a` keeps `a`'s promise pending
and creates no armed scheduled handle of `a`. -/
theorem call_on_cleared_state {s : ChannelState} {a : Nat} (b : Nat)
    (cardBizId text2 : String) (t2 : Int) (oc2 : UpdateOutcome)
    (hb : b ≠ a)
    (hX : TimeoutsClearOf (clearTimer s.cardUpdateTimeouts cardBizId) a)
    (hpend : lookupA a s.promises = some PromiseStatus.pending) :
    NoArmedScheduledFor (updateInteractiveCardThrottled s b cardBizId text2 t2 oc2) a ∧
    lookupA a (updateInteractiveCardThrottled s b cardBizId text2 t2 oc2).promises
      = some PromiseStatus.pending := by
  have hab : a ≠ b := fun hh => hb hh.symm
  by_cases hbr : CARD_UPDATE_MIN_INTERVAL
      ≤ t2 - (lookupA cardBizId s.cardUpdateTimestamps).getD 0
  · cases oc2 with
    | success =>
      rw [throttled_immediate_success hbr]
      refine ⟨setA_timer_preserves hX cardBizId _ (by intro _ txt; simp), ?_⟩
      dsimp only
      rw [lookupA_setA_ne _ _ hab]
      exact hpend
    | failure status =>
      rw [throttled_immediate_failure hbr]
      refine ⟨hX, ?_⟩
      dsimp only
      rw [lookupA_setA_ne _ _ hab]
      exact hpend
  · rw [throttled_scheduled hbr]
    refine ⟨setA_timer_preserves hX cardBizId _
      (by intro _ txt hk; injection hk with h1 h2; exact hab h1.symm), ?_⟩
    dsimp only
    rw [lookupA_setA_ne _ _ hab]
    exact hpend

/-- C10 (confirmed): if a throttled call `a` is superseded — it armed a
delayed dispatch (throttled branch) and a newer call `b` for the same
card runs next — then after any further events that are not a call
reusing id `a` (timer firings, sweeps, other calls), `a`'s promise is
still pending: it never resolves and never rejects, so a caller awaiting
it waits forever. -/
theorem C10_superseded_promise_never_settles (s0 : ChannelState) (a b : Nat)
    (cardBizId text1 text2 : String) (t1 t2 : Int) (oc2 : UpdateOutcome)
    (evs : List Event)
    (hinv0 : NoArmedScheduledFor s0 a)
    (hb : b ≠ a)
    (hthr : ¬ CARD_UPDATE_MIN_INTERVAL
      ≤ t1 - (lookupA cardBizId s0.cardUpdateTimestamps).getD 0)
    (hfresh : ∀ e ∈ evs, eventCallId e ≠ some a) :
    lookupA a (run (updateInteractiveCardThrottled
        (updateInteractiveCardThrottled s0 a cardBizId text1 t1 .success)
        b cardBizId text2 t2 oc2) evs).promises = some PromiseStatus.pending := by
  rw [throttled_scheduled hthr]
  have hsup := @call_on_cleared_state
    { s0 with
      cardUpdateTimeouts :=
        setA cardBizId
          ⟨t1 + (CARD_UPDATE_MIN_INTERVAL
              - (t1 - (lookupA cardBizId s0.cardUpdateTimestamps).getD 0)),
           .scheduled a text1, true⟩
          (clearTimer s0.cardUpdateTimeouts cardBizId),
      promises := setA a .pending s0.promises }
    a b cardBizId text2 t2 oc2 hb
    (TimeoutsClearOf_clearTimer_setA (clearTimer_preserves hinv0 cardBizId) cardBizId _)
    (lookupA_setA_self a PromiseStatus.pending s0.promises)
  exact (run_preserves_superseded evs _ hsup.1 hsup.2 hfresh).2

/-- C10 witness: concrete instantiation of
`C10_superseded_promise_never_settles` — call 7 is throttled at t=1200,
call 8 supersedes it at t=1300, call 8's timer fires at t=1500; call 7's
promise is still pending. -/
theorem C10_superseded_promise_never_settles_witness :
    lookupA 7 (run (updateInteractiveCardThrottled
        (updateInteractiveCardThrottled
          (⟨[], [("c", 1000)], [], [], []⟩ : ChannelState) 7 "c" "x" 1200 .success)
        8 "c" "y" 1300 .success) [.fire "c" 1500 .success]).promises
      = some PromiseStatus.pending :=
  C10_superseded_promise_never_settles ⟨[], [("c", 1000)], [], [], []⟩ 7 8 "c" "x" "y"
    1200 1300 .success [.fire "c" 1500 .success]
    (by intro id t h; simp [lookupA] at h) (by decide) (by decide) (by decide)

end DingTalk
